import Mathlib

/-!
Verification of the conversion pipeline of the Video-in-Speech repository.

The repository has two variants of the same tkinter GUI tool:
`src/tis.py` (class `VideoToTextConverter`, method `convert_video`) and
`src/mit.py` (class `VideoToTextConverter`, method `convert_media`).
Both run, on a background worker thread, the pipeline
extraction → transcription → persistence → cleanup over one selected
media file, and report progress and the terminal outcome back to the UI.

The embedding below models one job run as a pure function of
  * the suffix (extension, with the dot) of the selected file,
  * an oracle `Collab` saying how each external collaborator call
    (moviepy clip construction, `write_audiofile`, `record`,
    `recognize_vosk`, the transcript file write, `Path.unlink`)
    behaves on this run: `none`/`Except.ok` means the call returns,
    `some msg` / `Except.error msg` means it raises an exception whose
    `str(e)` is `msg`,
  * the initial state `FS` of the two sibling files `<stem>.wav` and
    `<stem>.txt` owned by the job.
The run returns the final file state, the list of UI-facing actions the
worker performed in order (direct widget calls vs. `root.after` posts),
whether the media handle was opened and closed, and the terminal result.
-/

namespace VideoInSpeech

/-- Python string lowercasing (`str.lower`) on the character list of the
suffix; the suffixes involved are ASCII, where `Char.toLower` agrees with
Python. -/
def lowercase (s : List Char) : List Char := s.map Char.toLower

/-- Video suffixes checked by `tis.py` lines 140 and 153:
`(".mp4", ".avi", ".mov", ".mkv")`. -/
def videoSuffixes : List (List Char) :=
  [".mp4".data, ".avi".data, ".mov".data, ".mkv".data]

/-- Audio suffixes checked by `tis.py` line 143: `(".mp3", ".wav", ".ogg")`. -/
def audioSuffixes : List (List Char) :=
  [".mp3".data, ".wav".data, ".ogg".data]

/-- Media kinds distinguished by the `if`/`elif` of `tis.py` lines 140-144.
`unsupported` is the fall-through where neither branch runs and the local
variable `audio_file` stays unassigned. -/
inductive MediaKind where
  | video
  | audio
  | unsupported
deriving DecidableEq, Repr

/-- Classification implicit in `tis.py` lines 140-144: a case-insensitive
membership test of the file suffix against the two fixed tuples. -/
def classify (suffix : List Char) : MediaKind :=
  if lowercase suffix ∈ videoSuffixes then MediaKind.video
  else if lowercase suffix ∈ audioSuffixes then MediaKind.audio
  else MediaKind.unsupported

/-- Outcome oracle for the external collaborator calls of one run.
A field `none` (or `Except.ok text`) means that call returns normally;
`some msg` (or `Except.error msg`) means it raises an exception with
`str(e) = msg`. -/
structure Collab where
  /-- `VideoFileClip(...)` / `AudioFileClip(...)` construction. -/
  openRes : Option String
  /-- `audio_file.write_audiofile(wav_filename)`. -/
  writeAudioRes : Option String
  /-- `AudioFile(...)` / `r.record(source)`. -/
  recordRes : Option String
  /-- `r.recognize_vosk(...)`: the transcript text, or a backend error. -/
  recognizeRes : Except String String
  /-- Opening and writing `<stem>.txt`. -/
  writeTextRes : Option String
  /-- `Path.unlink(wav_filename)` / `wav_filename.unlink()`. -/
  unlinkRes : Option String
deriving Repr

/-- State of the two job-owned sibling files `<stem>.wav` and `<stem>.txt`.
`txtContent = none` means no `<stem>.txt` file exists. -/
structure FS where
  wavExists : Bool
  txtContent : Option String
deriving DecidableEq, Repr

/-- UI-facing action performed by the worker thread, in program order.
`stepDirect` is `self.progress_bar.step(n)` invoked directly on the widget
from the worker; the `post*` constructors are calls marshalled to the UI
thread through `self.root.after(0, ...)`. -/
inductive Ev where
  | stepDirect (percent : Nat)
  | postLabel (text : String)
  | postCompleted
  | postFailed (msg : String)
deriving DecidableEq, Repr

/-- Terminal result of a run: which of `conversion_completed` /
`conversion_failed(msg)` the worker scheduled. -/
inductive JobResult where
  | succeeded
  | failed (msg : String)
deriving DecidableEq, Repr

/-- Observable outcome of one `convert_video` / `convert_media` run. -/
structure JobOut where
  fs : FS
  events : List Ev
  handleOpened : Bool
  handleClosed : Bool
  result : JobResult
deriving DecidableEq, Repr

/-- Message of the `UnboundLocalError` raised at the
`audio_file.write_audiofile(...)` line of `tis.py` when the suffix matched
neither tuple and `audio_file` was never assigned. -/
def unboundLocalMsg : String :=
  "cannot access local variable audio_file where it is not associated with a value"

/-- Tail of `convert_video` (`tis.py` lines 146-197) after the clip was
constructed successfully, shared by the video and audio branches of the
`if`/`elif`: write the wav, close the handle, record, recognize, write the
txt, unlink the wav, then post the terminal callback. `evs0` is the event
prelude accumulated before this point. -/
def convert_video_tail (c : Collab) (fs0 : FS) (evs0 : List Ev) : JobOut :=
  let evs1 := evs0 ++ [Ev.stepDirect 10]
  match c.writeAudioRes with
  | some msg =>
      { fs := fs0
        events := evs1 ++ [Ev.postFailed msg]
        handleOpened := true
        handleClosed := false
        result := JobResult.failed msg }
  | none =>
    let fs1 : FS := { fs0 with wavExists := true }
    let evs2 := evs1 ++ [Ev.stepDirect 10]
    let evs3 := evs2 ++ [Ev.stepDirect 10, Ev.postLabel "Converting speech to text...",
      Ev.stepDirect 10, Ev.stepDirect 10]
    match c.recordRes with
    | some msg =>
        { fs := fs1
          events := evs3 ++ [Ev.postFailed msg]
          handleOpened := true
          handleClosed := true
          result := JobResult.failed msg }
    | none =>
      let evs4 := evs3 ++ [Ev.stepDirect 10]
      match c.recognizeRes with
      | Except.error msg =>
          { fs := fs1
            events := evs4 ++ [Ev.postFailed msg]
            handleOpened := true
            handleClosed := true
            result := JobResult.failed msg }
      | Except.ok text =>
        let evs5 := evs4 ++ [Ev.stepDirect 10]
        match c.writeTextRes with
        | some msg =>
            { fs := fs1
              events := evs5 ++ [Ev.postFailed msg]
              handleOpened := true
              handleClosed := true
              result := JobResult.failed msg }
        | none =>
          let fs2 : FS := { fs1 with txtContent := some text }
          let evs6 := evs5 ++ [Ev.stepDirect 10]
          if fs2.wavExists then
            match c.unlinkRes with
            | some msg =>
                { fs := fs2
                  events := evs6 ++ [Ev.postFailed msg]
                  handleOpened := true
                  handleClosed := true
                  result := JobResult.failed msg }
            | none =>
                { fs := { fs2 with wavExists := false }
                  events := evs6 ++ [Ev.postCompleted]
                  handleOpened := true
                  handleClosed := true
                  result := JobResult.succeeded }
          else
            { fs := fs2
              events := evs6 ++ [Ev.postCompleted]
              handleOpened := true
              handleClosed := true
              result := JobResult.succeeded }

/-- One run of `VideoToTextConverter.convert_video` (`src/tis.py` lines
129-197) over a file whose suffix is `suffix`, with collaborator outcomes
`c` and initial sibling-file state `fs0`. An exception anywhere in the
`try` body jumps to the `except` handler, which only posts
`conversion_failed(str(e))` — it neither deletes the wav nor closes the
clip. -/
def convert_video (suffix : List Char) (c : Collab) (fs0 : FS) : JobOut :=
  let evs0 := [Ev.stepDirect 10, Ev.postLabel "Extracting audio...", Ev.stepDirect 10]
  match classify suffix with
  | MediaKind.unsupported =>
      { fs := fs0
        events := evs0 ++ [Ev.stepDirect 10, Ev.postFailed unboundLocalMsg]
        handleOpened := false
        handleClosed := false
        result := JobResult.failed unboundLocalMsg }
  | MediaKind.video =>
    match c.openRes with
    | some msg =>
        { fs := fs0
          events := evs0 ++ [Ev.postFailed msg]
          handleOpened := false
          handleClosed := false
          result := JobResult.failed msg }
    | none => convert_video_tail c fs0 evs0
  | MediaKind.audio =>
    match c.openRes with
    | some msg =>
        { fs := fs0
          events := evs0 ++ [Ev.postFailed msg]
          handleOpened := false
          handleClosed := false
          result := JobResult.failed msg }
    | none => convert_video_tail c fs0 evs0

/-- One run of `VideoToTextConverter.convert_media` (`src/mit.py` lines
125-166). There is no suffix check at all: `AudioFileClip` is constructed
on whatever file was selected, so the `suffix` argument is never consulted.
Progress is three direct `step(30)` widget calls; the two label updates go
through `root.after`, and `recognize_vosk` is called with no language
argument. -/
def convert_media (_suffix : List Char) (c : Collab) (fs0 : FS) : JobOut :=
  let evs0 := [Ev.stepDirect 30, Ev.postLabel "Extracting audio..."]
  match c.openRes with
  | some msg =>
      { fs := fs0
        events := evs0 ++ [Ev.postFailed msg]
        handleOpened := false
        handleClosed := false
        result := JobResult.failed msg }
  | none =>
    match c.writeAudioRes with
    | some msg =>
        { fs := fs0
          events := evs0 ++ [Ev.postFailed msg]
          handleOpened := true
          handleClosed := false
          result := JobResult.failed msg }
    | none =>
      let fs1 : FS := { fs0 with wavExists := true }
      let evs1 := evs0 ++ [Ev.stepDirect 30, Ev.postLabel "Converting speech to text..."]
      match c.recordRes with
      | some msg =>
          { fs := fs1
            events := evs1 ++ [Ev.postFailed msg]
            handleOpened := true
            handleClosed := true
            result := JobResult.failed msg }
      | none =>
        match c.recognizeRes with
        | Except.error msg =>
            { fs := fs1
              events := evs1 ++ [Ev.postFailed msg]
              handleOpened := true
              handleClosed := true
              result := JobResult.failed msg }
        | Except.ok text =>
          let evs2 := evs1 ++ [Ev.stepDirect 30]
          match c.writeTextRes with
          | some msg =>
              { fs := fs1
                events := evs2 ++ [Ev.postFailed msg]
                handleOpened := true
                handleClosed := true
                result := JobResult.failed msg }
          | none =>
            let fs2 : FS := { fs1 with txtContent := some text }
            if fs2.wavExists then
              match c.unlinkRes with
              | some msg =>
                  { fs := fs2
                    events := evs2 ++ [Ev.postFailed msg]
                    handleOpened := true
                    handleClosed := true
                    result := JobResult.failed msg }
              | none =>
                  { fs := { fs2 with wavExists := false }
                    events := evs2 ++ [Ev.postCompleted]
                    handleOpened := true
                    handleClosed := true
                    result := JobResult.succeeded }
            else
              { fs := fs2
                events := evs2 ++ [Ev.postCompleted]
                handleOpened := true
                handleClosed := true
                result := JobResult.succeeded }

/-- UI-facing action of the folder-opening helpers. `shellCommand` covers
both `os.startfile` and `os.system(...)`; the payload names the command and
the path handed to it (the parent folder of the output file). -/
inductive UIAct where
  | shellCommand (cmd : String)
  | errorDialog (msg : String)
  | warnDialog (msg : String)
deriving DecidableEq, Repr

/-- One call of `VideoToTextConverter.open_text_file` (`src/tis.py` lines
222-237): `output_file` is `self.output_file` (`none` when unset),
`outputExists` is what `self.output_file.exists()` returns, `folder` is the
parent folder of the output file, `osName` is `os.name`, and `startfileRes`
tells whether `os.startfile` raises `OSError` (`os.system` never raises on
command failure). Returns the actions performed, in order. -/
def open_text_file (output_file : Option String) (outputExists : Bool)
    (folder : String) (osName : String) (startfileRes : Option String) : List UIAct :=
  match output_file with
  | some _ =>
    if outputExists then
      if osName = "nt" then
        match startfileRes with
        | some e => [UIAct.errorDialog ("Could not open folder:\n" ++ e)]
        | none => [UIAct.shellCommand ("startfile " ++ folder)]
      else if osName = "posix" then
        [UIAct.shellCommand ("xdg-open " ++ folder)]
      else []
    else
      [UIAct.warnDialog "No text file available to open."]
  | none =>
      [UIAct.warnDialog "No text file available to open."]

/-- One call of `VideoToTextConverter.open_folder` (`src/mit.py` lines
201-218); identical to `open_text_file` except for an extra (dead on
CPython, where `os.name` is never `"darwin"`) macOS branch. -/
def open_folder (output_file : Option String) (outputExists : Bool)
    (folder : String) (osName : String) (startfileRes : Option String) : List UIAct :=
  match output_file with
  | some _ =>
    if outputExists then
      if osName = "nt" then
        match startfileRes with
        | some e => [UIAct.errorDialog ("Could not open folder:\n" ++ e)]
        | none => [UIAct.shellCommand ("startfile " ++ folder)]
      else if osName = "darwin" then
        [UIAct.shellCommand ("open " ++ folder)]
      else if osName = "posix" then
        [UIAct.shellCommand ("xdg-open " ++ folder)]
      else []
    else
      [UIAct.warnDialog "No text file available to open."]
  | none =>
      [UIAct.warnDialog "No text file available to open."]

/-- Predicate on worker actions: a terminal post (`conversion_completed`
or `conversion_failed`). -/
def isTerminalEv : Ev → Bool
  | Ev.postCompleted => true
  | Ev.postFailed _ => true
  | _ => false

/-- Predicate on worker actions: a widget call made directly from the
worker thread, not marshalled through `root.after`. -/
def isDirectCall : Ev → Bool
  | Ev.stepDirect _ => true
  | _ => false

/-- Predicate on folder-opening actions: an OS shell/open command. -/
def isShell : UIAct → Bool
  | UIAct.shellCommand _ => true
  | _ => false

/-- Boolean test that a result is the failed terminal state. -/
def JobResult.isFailed : JobResult → Bool
  | JobResult.failed _ => true
  | JobResult.succeeded => false

/-- Collaborator oracle on which every external call succeeds and the
recognizer returns `"hello world"`. -/
def allOk : Collab :=
  { openRes := none
    writeAudioRes := none
    recordRes := none
    recognizeRes := Except.ok "hello world"
    writeTextRes := none
    unlinkRes := none }

/-- Initial sibling-file state with neither `<stem>.wav` nor `<stem>.txt`
present. -/
def emptyFS : FS := { wavExists := false, txtContent := none }

/-- Collaborator oracle where only the recognition backend fails. -/
def recogFails : Collab := { allOk with recognizeRes := Except.error "backend error" }

/-- Collaborator oracle where only `write_audiofile` fails. -/
def writeFails : Collab := { allOk with writeAudioRes := some "broken pipe" }

/-- Collaborator oracle where only the wav `unlink` fails. -/
def unlinkFails : Collab := { allOk with unlinkRes := some "permission denied" }

/-- Collaborator oracle where the recognizer returns the empty string. -/
def silentOk : Collab := { allOk with recognizeRes := Except.ok "" }

/-- Boolean test that `recognize_vosk` raised rather than returned text. -/
def recognizeRaised : Except String String → Bool
  | Except.error _ => true
  | Except.ok _ => false

/-- C5: classification of the selected file (`tis.py` lines 140-144) is a
pure function of the suffix alone, case-insensitive via `str.lower`: the
four video suffixes map to `video`, the three audio suffixes to `audio`,
and anything else falls through to `unsupported`. -/
theorem classify_by_lowercased_suffix (s t : List Char) :
    (lowercase s ∈ videoSuffixes → classify s = MediaKind.video) ∧
    (lowercase s ∈ audioSuffixes → classify s = MediaKind.audio) ∧
    (lowercase s ∉ videoSuffixes → lowercase s ∉ audioSuffixes →
      classify s = MediaKind.unsupported) ∧
    (lowercase s = lowercase t → classify s = classify t) := by
  refine ⟨?_, ?_, ?_, ?_⟩
  · intro h
    simp [classify, h]
  · intro h
    have hv : lowercase s ∉ videoSuffixes := by
      simp only [audioSuffixes, List.mem_cons, List.not_mem_nil, or_false] at h
      rcases h with h | h | h <;> rw [h] <;> decide
    simp [classify, h, hv]
  · intro hv ha
    simp [classify, hv, ha]
  · intro h
    simp [classify, h]

/-- C5 witness at the mixed-case suffix `.MP4`. -/
theorem classify_by_lowercased_suffix_witness :
    classify ".MP4".data = MediaKind.video ∧
    classify ".MP4".data = classify ".mp4".data := by
  have h := classify_by_lowercased_suffix ".MP4".data ".mp4".data
  exact ⟨h.1 (by decide), h.2.2.2 (by decide)⟩

/-- C10: when the output path is unset, or the file at it no longer
exists, both folder-opening helpers execute no OS shell/open command,
show exactly the warning dialog, and return normally. -/
theorem no_open_without_output (output_file : Option String) (outputExists : Bool)
    (folder osName : String) (startfileRes : Option String)
    (h : output_file = none ∨ outputExists = false) :
    open_text_file output_file outputExists folder osName startfileRes
        = [UIAct.warnDialog "No text file available to open."] ∧
    open_folder output_file outputExists folder osName startfileRes
        = [UIAct.warnDialog "No text file available to open."] ∧
    (open_text_file output_file outputExists folder osName startfileRes).countP isShell = 0 ∧
    (open_folder output_file outputExists folder osName startfileRes).countP isShell = 0 := by
  rcases h with h | h
  · subst h
    simp [open_text_file, open_folder, isShell]
  · subst h
    cases output_file <;> simp [open_text_file, open_folder, isShell]

/-- C10 witness: an unset output path on Linux. -/
theorem no_open_without_output_witness :
    open_text_file none true "/tmp" "posix" none
        = [UIAct.warnDialog "No text file available to open."] ∧
    open_folder none true "/tmp" "posix" none
        = [UIAct.warnDialog "No text file available to open."] ∧
    (open_text_file none true "/tmp" "posix" none).countP isShell = 0 ∧
    (open_folder none true "/tmp" "posix" none).countP isShell = 0 :=
  no_open_without_output none true "/tmp" "posix" none (Or.inl rfl)

/-- C1 counterexample: on `talk.mp4`, extraction succeeds (the wav is
written) and the recognizer then raises; the job reaches the failed
terminal state with `talk.wav` still on disk, because the `except` handler
(`tis.py` lines 194-197) posts `conversion_failed` without deleting the
wav. -/
theorem wav_left_behind_on_failure_cex :
    (convert_video ".mp4".data recogFails emptyFS).result
        = JobResult.failed "backend error" ∧
    (convert_video ".mp4".data recogFails emptyFS).fs.wavExists = true := by
  decide

/-- C2 counterexample: `convert_media` (`mit.py`) never inspects the
suffix, so on `clip.xyz` with a collaborator that can decode the file the
job attempts extraction, creates files, and even succeeds — it does not
fail fast with an unsupported-format error, and a `.txt` is created. -/
theorem unsupported_extension_converts_cex :
    (convert_media ".xyz".data allOk emptyFS).result = JobResult.succeeded ∧
    (convert_media ".xyz".data allOk emptyFS).fs.txtContent = some "hello world" := by
  decide

/-- C3 counterexample: in a successful run both workers invoke
`progress_bar.step` directly on the widget from the background thread
(10 times in `convert_video`, 3 times in `convert_media`) instead of
marshalling those progress calls through `root.after`. -/
theorem progress_steps_called_directly_cex :
    (convert_video ".mp4".data allOk emptyFS).events.countP isDirectCall = 10 ∧
    (convert_media ".mp3".data allOk emptyFS).events.countP isDirectCall = 3 := by
  decide

/-- C7 counterexample: when `write_audiofile` raises, control jumps to the
`except` handler without ever reaching the `close()` call, so the job ends
failed with the media handle still open. -/
theorem handle_leaks_on_write_failure_cex :
    (convert_video ".mp4".data writeFails emptyFS).handleOpened = true ∧
    (convert_video ".mp4".data writeFails emptyFS).handleClosed = false ∧
    (convert_video ".mp4".data writeFails emptyFS).result
        = JobResult.failed "broken pipe" := by
  decide

/-- C8 counterexample: the `unlink` of the wav sits inside the `try` with
no handler of its own, so a deletion failure escalates: a run in which
everything up to and including the transcript write succeeded ends in the
failed terminal state. -/
theorem unlink_failure_fails_job_cex :
    (convert_video ".mp4".data unlinkFails emptyFS).result
        = JobResult.failed "permission denied" ∧
    (convert_video ".mp4".data unlinkFails emptyFS).fs.txtContent = some "hello world" ∧
    (convert_video ".mp4".data unlinkFails emptyFS).fs.wavExists = true := by
  decide

/-- C4: every run that reaches the succeeded terminal state leaves the
transcript file containing exactly the recognized text and no wav file,
in both variants. -/
theorem success_implies_txt_written_wav_deleted (suffix : List Char) (c : Collab) (fs0 : FS) :
    ((convert_video suffix c fs0).result = JobResult.succeeded →
      (convert_video suffix c fs0).fs.wavExists = false ∧
      ∃ t, c.recognizeRes = Except.ok t ∧
        (convert_video suffix c fs0).fs.txtContent = some t) ∧
    ((convert_media suffix c fs0).result = JobResult.succeeded →
      (convert_media suffix c fs0).fs.wavExists = false ∧
      ∃ t, c.recognizeRes = Except.ok t ∧
        (convert_media suffix c fs0).fs.txtContent = some t) := by
  obtain ⟨o, w, r, rg, wt, ul⟩ := c
  constructor
  · rcases hcl : classify suffix with _ | _ | _ <;>
      cases o <;> cases w <;> cases r <;> cases rg <;> cases wt <;> cases ul <;>
        simp [convert_video, convert_video_tail, hcl]
  · cases o <;> cases w <;> cases r <;> cases rg <;> cases wt <;> cases ul <;>
      simp [convert_media]

/-- C4 witness: the all-success run on a `.mp4` source. -/
theorem success_implies_txt_written_wav_deleted_witness :
    (convert_video ".mp4".data allOk emptyFS).fs.wavExists = false ∧
    ∃ t, allOk.recognizeRes = Except.ok t ∧
      (convert_video ".mp4".data allOk emptyFS).fs.txtContent = some t :=
  (success_implies_txt_written_wav_deleted ".mp4".data allOk emptyFS).1 (by decide)

/-- C6: whenever the recognizer returns a string without raising — the
empty string included — and the remaining collaborator calls succeed, the
job ends succeeded with the transcript file containing exactly that
string, in both variants. -/
theorem backend_string_is_success (suffix : List Char) (c : Collab) (fs0 : FS) (t : String)
    (hk : classify suffix ≠ MediaKind.unsupported)
    (ho : c.openRes = none) (hw : c.writeAudioRes = none) (hr : c.recordRes = none)
    (hg : c.recognizeRes = Except.ok t) (ht : c.writeTextRes = none)
    (hu : c.unlinkRes = none) :
    (convert_video suffix c fs0).result = JobResult.succeeded ∧
    (convert_video suffix c fs0).fs.txtContent = some t ∧
    (convert_media suffix c fs0).result = JobResult.succeeded ∧
    (convert_media suffix c fs0).fs.txtContent = some t := by
  rcases hcl : classify suffix with _ | _ | _
  · simp [convert_video, convert_video_tail, convert_media, hcl, ho, hw, hr, hg, ht, hu]
  · simp [convert_video, convert_video_tail, convert_media, hcl, ho, hw, hr, hg, ht, hu]
  · exact absurd hcl hk

/-- C6 witness: a silent `.wav` source whose recognizer output is the
empty string ends succeeded with an empty transcript file. -/
theorem backend_string_is_success_witness :
    classify ".wav".data ≠ MediaKind.unsupported ∧
    (convert_media ".wav".data silentOk emptyFS).result = JobResult.succeeded ∧
    (convert_media ".wav".data silentOk emptyFS).fs.txtContent = some "" := by
  have h := backend_string_is_success ".wav".data silentOk emptyFS ""
    (by decide) rfl rfl rfl rfl rfl rfl
  exact ⟨by decide, h.2.2.1, h.2.2.2⟩

/-- C9: every run that fails before the persistence stage (clip
construction, audio write, record, or recognition raised; in the tis
variant also the unsupported-suffix fall-through) leaves the transcript
file exactly as it was before the run. -/
theorem txt_untouched_before_persist (suffix : List Char) (c : Collab) (fs0 : FS) :
    ((c.openRes ≠ none ∨ c.writeAudioRes ≠ none ∨ c.recordRes ≠ none ∨
        recognizeRaised c.recognizeRes = true) →
      (convert_video suffix c fs0).fs.txtContent = fs0.txtContent ∧
      (convert_video suffix c fs0).result.isFailed = true ∧
      (convert_media suffix c fs0).fs.txtContent = fs0.txtContent ∧
      (convert_media suffix c fs0).result.isFailed = true) ∧
    (classify suffix = MediaKind.unsupported →
      (convert_video suffix c fs0).fs.txtContent = fs0.txtContent ∧
      (convert_video suffix c fs0).result.isFailed = true) := by
  constructor
  · intro h
    rcases hcl : classify suffix with _ | _ | _ <;>
    rcases ho : c.openRes with _ | m0 <;>
    rcases hw : c.writeAudioRes with _ | m1 <;>
    rcases hr : c.recordRes with _ | m2 <;>
    rcases hg : c.recognizeRes with m3 | t <;>
      simp_all [convert_video, convert_video_tail, convert_media,
        recognizeRaised, JobResult.isFailed]
  · intro hcl
    simp [convert_video, hcl, JobResult.isFailed]

/-- C9 witness: recognition raises on a `.mp4` source over a filesystem
that already held a stale transcript; the stale transcript survives. -/
theorem txt_untouched_before_persist_witness :
    (convert_video ".mp4".data recogFails { wavExists := false, txtContent := some "old" }).fs.txtContent
        = some "old" ∧
    (convert_media ".mp4".data recogFails { wavExists := false, txtContent := some "old" }).fs.txtContent
        = some "old" := by
  have h := (txt_untouched_before_persist ".mp4".data recogFails
    { wavExists := false, txtContent := some "old" }).1
    (Or.inr (Or.inr (Or.inr (by decide))))
  exact ⟨h.1, h.2.2.1⟩

/-- C1 (amended): when extraction succeeded (the wav was written) and a
later stage — record, recognition, or the transcript write — raises, the
job ends failed with the wav still on disk: cleanup runs only on the
success path, in both variants. -/
theorem wav_remains_after_late_failure (suffix : List Char) (c : Collab) (fs0 : FS)
    (ho : c.openRes = none) (hw : c.writeAudioRes = none)
    (hfail : c.recordRes ≠ none ∨ recognizeRaised c.recognizeRes = true ∨
      c.writeTextRes ≠ none) :
    (classify suffix ≠ MediaKind.unsupported →
      (convert_video suffix c fs0).fs.wavExists = true ∧
      (convert_video suffix c fs0).result.isFailed = true) ∧
    ((convert_media suffix c fs0).fs.wavExists = true ∧
      (convert_media suffix c fs0).result.isFailed = true) := by
  rcases hr : c.recordRes with _ | m2 <;>
  rcases hg : c.recognizeRes with m3 | t <;>
  rcases ht : c.writeTextRes with _ | m4 <;>
  rcases hcl : classify suffix with _ | _ | _ <;>
    simp_all [convert_video, convert_video_tail, convert_media,
      recognizeRaised, JobResult.isFailed]

/-- C1 witness: recognition raises after successful extraction of a
`.mp4` source; the wav remains in both variants. -/
theorem wav_remains_after_late_failure_witness :
    (convert_video ".mp4".data recogFails emptyFS).fs.wavExists = true ∧
    (convert_video ".mp4".data recogFails emptyFS).result.isFailed = true ∧
    (convert_media ".mp4".data recogFails emptyFS).fs.wavExists = true := by
  have h := wav_remains_after_late_failure ".mp4".data recogFails emptyFS rfl rfl
    (Or.inr (Or.inl (by decide)))
  exact ⟨(h.1 (by decide)).1, (h.1 (by decide)).2, h.2.1⟩

/-- C2 (amended): in the tis variant an unsupported suffix makes the job
fail during the extraction stage with the generic unbound-local error —
not a descriptive unsupported-format error — though no wav or txt is
created and no handle is opened; the mit variant has no suffix gate at
all: its behaviour is identical for every suffix. -/
theorem unsupported_extension_behavior (suffix alt : List Char) (c : Collab) (fs0 : FS) :
    (classify suffix = MediaKind.unsupported →
      (convert_video suffix c fs0).result = JobResult.failed unboundLocalMsg ∧
      (convert_video suffix c fs0).fs = fs0 ∧
      (convert_video suffix c fs0).handleOpened = false) ∧
    convert_media suffix c fs0 = convert_media alt c fs0 := by
  constructor
  · intro hcl
    simp [convert_video, hcl]
  · rfl

/-- C2 witness: the `.xyz` suffix in the tis variant. -/
theorem unsupported_extension_behavior_witness :
    (convert_video ".xyz".data allOk emptyFS).result = JobResult.failed unboundLocalMsg ∧
    (convert_video ".xyz".data allOk emptyFS).fs = emptyFS := by
  have h := (unsupported_extension_behavior ".xyz".data ".mp4".data allOk emptyFS).1 (by decide)
  exact ⟨h.1, h.2.1⟩

/-- C7 (amended): given the clip was constructed, the media handle is
closed if and only if `write_audiofile` succeeded; on an audio-write
failure the handle is still open at the failed terminal state, in both
variants. -/
theorem handle_closed_iff_write_ok (suffix : List Char) (c : Collab) (fs0 : FS)
    (hk : classify suffix ≠ MediaKind.unsupported) (ho : c.openRes = none) :
    ((convert_video suffix c fs0).handleOpened = true ∧
      ((convert_video suffix c fs0).handleClosed = true ↔ c.writeAudioRes = none)) ∧
    ((convert_media suffix c fs0).handleOpened = true ∧
      ((convert_media suffix c fs0).handleClosed = true ↔ c.writeAudioRes = none)) := by
  rcases hw : c.writeAudioRes with _ | m1 <;>
  rcases hr : c.recordRes with _ | m2 <;>
  rcases hg : c.recognizeRes with m3 | t <;>
  rcases ht : c.writeTextRes with _ | m4 <;>
  rcases hu : c.unlinkRes with _ | m5 <;>
  rcases hcl : classify suffix with _ | _ | _ <;>
    simp_all [convert_video, convert_video_tail, convert_media]

/-- C7 witness: the all-success run on a `.mp4` source closes the handle;
the same run with a failing audio write leaves it open. -/
theorem handle_closed_iff_write_ok_witness :
    (convert_video ".mp4".data allOk emptyFS).handleClosed = true ∧
    (convert_media ".mp4".data allOk emptyFS).handleClosed = true := by
  have h := handle_closed_iff_write_ok ".mp4".data allOk emptyFS (by decide) rfl
  exact ⟨h.1.2.mpr rfl, h.2.2.mpr rfl⟩

/-- C8 (amended): a failure of the wav deletion step is not caught — it
escalates to the failed terminal state even though the transcript was
already written successfully, and the wav also remains, in both
variants. -/
theorem unlink_failure_escalates (suffix : List Char) (c : Collab) (fs0 : FS) (m t : String)
    (hk : classify suffix ≠ MediaKind.unsupported) (ho : c.openRes = none)
    (hw : c.writeAudioRes = none) (hr : c.recordRes = none)
    (hg : c.recognizeRes = Except.ok t) (ht : c.writeTextRes = none)
    (hu : c.unlinkRes = some m) :
    (convert_video suffix c fs0).result = JobResult.failed m ∧
    (convert_video suffix c fs0).fs.wavExists = true ∧
    (convert_video suffix c fs0).fs.txtContent = some t ∧
    (convert_media suffix c fs0).result = JobResult.failed m ∧
    (convert_media suffix c fs0).fs.wavExists = true ∧
    (convert_media suffix c fs0).fs.txtContent = some t := by
  rcases hcl : classify suffix with _ | _ | _
  · simp [convert_video, convert_video_tail, convert_media, hcl, ho, hw, hr, hg, ht, hu]
  · simp [convert_video, convert_video_tail, convert_media, hcl, ho, hw, hr, hg, ht, hu]
  · exact absurd hcl hk

/-- C8 witness: a permission error on the unlink after a fully successful
`.mp4` conversion ends the job failed with the transcript written. -/
theorem unlink_failure_escalates_witness :
    (convert_video ".mp4".data unlinkFails emptyFS).result
        = JobResult.failed "permission denied" ∧
    (convert_video ".mp4".data unlinkFails emptyFS).fs.txtContent = some "hello world" ∧
    (convert_media ".mp4".data unlinkFails emptyFS).result
        = JobResult.failed "permission denied" := by
  have h := unlink_failure_escalates ".mp4".data unlinkFails emptyFS
    "permission denied" "hello world" (by decide) rfl rfl rfl rfl rfl rfl
  exact ⟨h.1, h.2.2.1, h.2.2.2.1⟩

/-- Trace check used for the terminal-ordering property: the trace ends
with a terminal post and contains no other terminal post. -/
def uniqueTerminalLast (evs : List Ev) : Bool :=
  match evs.reverse with
  | [] => false
  | e :: rest => isTerminalEv e && rest.countP isTerminalEv == 0

/-- C3 (amended): in every run of either variant the terminal callback is
posted exactly once, after all progress calls, and is the last sink call;
label updates and terminal callbacks are marshalled through `root.after`,
but every run also invokes `progress_bar.step` directly on the widget from
the worker thread. -/
theorem terminal_posted_once_and_last (suffix : List Char) (c : Collab) (fs0 : FS) :
    uniqueTerminalLast (convert_video suffix c fs0).events = true ∧
    uniqueTerminalLast (convert_media suffix c fs0).events = true ∧
    (convert_video suffix c fs0).events.countP isDirectCall ≠ 0 ∧
    (convert_media suffix c fs0).events.countP isDirectCall ≠ 0 := by
  rcases ho : c.openRes with _ | m0 <;>
  rcases hw : c.writeAudioRes with _ | m1 <;>
  rcases hr : c.recordRes with _ | m2 <;>
  rcases hg : c.recognizeRes with m3 | t <;>
  rcases ht : c.writeTextRes with _ | m4 <;>
  rcases hu : c.unlinkRes with _ | m5 <;>
  rcases hcl : classify suffix with _ | _ | _ <;>
    simp_all [convert_video, convert_video_tail, convert_media,
      uniqueTerminalLast, isTerminalEv, isDirectCall]

end VideoInSpeech
